import Mathlib

/-! Verification development for the dataset loading and batching layer
implemented in datagenerator.py: path discovery products, the QR-code join,
the sample dictionary, the three modality loaders with their caches, the
batch generator and the full-dataset materializer. Python dicts are modelled
as insertion-ordered association lists, numpy arrays as a shape vector plus
flat integer data, and raised Python exceptions as an error monad. -/

/-- Errors a Python-level run of the module can surface. A nameError models
evaluation of an identifier that is bound neither locally nor at module
level; an unboundLocal models reading a function-local variable before any
assignment to it has executed. -/
inductive PyErr where
  | assertionError (msg : String)
  | exception (msg : String)
  | nameError (missing : String)
  | unboundLocal (missing : String)
  | keyError (key : String)
  | indexError
deriving DecidableEq

/-- A decoded numpy array, abstracted as a shape vector plus flat integer
data (pixel and density values are opaque to the indexing logic). -/
structure Arr where
  shape : List Nat
  data : List Int
deriving DecidableEq

/-- Python substring test, the expression sub in hay on strings. -/
def strContains (hay sub : String) : Bool :=
  (List.range (hay.length + 1)).any fun i =>
    ((hay.data.drop i).take sub.length) == sub.data

/-- Lookup in a Python dict modelled as an insertion-ordered association
list: the value at the first matching key, if any. -/
def dlookup {α : Type} : List (String × α) → String → Option α
  | [], _ => none
  | (k2, v) :: rest, k => if k2 = k then some v else dlookup rest k

/-- Python dict assignment d[k] = v: overwrite the value in place when the
key is present, otherwise append the new binding at the end. -/
def dictSet {α : Type} : List (String × α) → String → α → List (String × α)
  | [], k, v => [(k, v)]
  | (k2, v2) :: rest, k, v =>
      if k2 = k then (k2, v) :: rest else (k2, v2) :: dictSet rest k v

/-- A personal-record JSON file: its path together with the qrcode.value
stored in it (file contents are bundled with the path; loading a
well-formed personal record cannot fail in this model). -/
structure PersonalFile where
  path : String
  qrcode : String
deriving DecidableEq

/-- A measurement-record JSON file: type.value, personId.value and the named
numeric fields from which output targets are read (numeric values modelled
as integers). -/
structure MeasureRecord where
  typeValue : String
  personId : String
  fields : List (String × Int)
deriving DecidableEq

/-- Model of DataGenerator._extract_qrcode (datagenerator.py lines
120-127): read personId.value, keep the personal-record paths containing it
as a substring, require via a bare assertion that exactly one such path
exists, load that file and return its qrcode.value. -/
def extract_qrcode (json_paths_personal : List PersonalFile) (rec : MeasureRecord) :
    Except PyErr String :=
  match json_paths_personal.filter (fun p => strContains p.path rec.personId) with
  | [m] => .ok m.qrcode
  | _ => .error (.assertionError "len(json_path_personal) == 1")

/-- Model of DataGenerator._extract_targets (lines 112-117): read the value
of each requested output-target field in the caller-given order; a missing
field is a Python KeyError. -/
def extract_targets (output_targets : List String) (rec : MeasureRecord) :
    Except PyErr (List Int) :=
  output_targets.mapM fun t =>
    match dlookup rec.fields t with
    | some v => Except.ok v
    | none => Except.error (.keyError t)

/-- One sample-dictionary value: target values, matching image paths,
matching scan paths. -/
abbrev QrEntry := List Int × List String × List String

/-- The sample dictionary, keyed by QR-code. -/
abbrev QrDict := List (String × QrEntry)

/-- The inputs _create_qrcodes_dictionary reads from the instance: the
personal-record files, the requested output targets and the discovered
image and scan path lists. -/
structure QdictCtx where
  json_paths_personal : List PersonalFile
  output_targets : List String
  jpg_paths : List String
  pcd_paths : List String

/-- One iteration of the loop in _create_qrcodes_dictionary (lines 88-107):
skip records whose type.value is not manual; extract the QR-code; raise on
a key already present; extract targets; filter the image and scan paths to
those containing the QR-code and the string measurements; store the triple. -/
def qdictStep (ctx : QdictCtx) (acc : QrDict) (rec : MeasureRecord) :
    Except PyErr QrDict :=
  if rec.typeValue ≠ "manual" then .ok acc
  else
    match extract_qrcode ctx.json_paths_personal rec with
    | .error e => .error e
    | .ok qrcode =>
      if (dlookup acc qrcode).isSome then
        .error (.exception ("Multiple manual measurements for QR-code: " ++ qrcode))
      else
        match extract_targets ctx.output_targets rec with
        | .error e => .error e
        | .ok targets =>
          let jpgs := ctx.jpg_paths.filter
            (fun p => strContains p qrcode && strContains p "measurements")
          let pcds := ctx.pcd_paths.filter
            (fun p => strContains p qrcode && strContains p "measurements")
          .ok (acc ++ [(qrcode, (targets, jpgs, pcds))])

/-- The loop of _create_qrcodes_dictionary over all measurement records,
threading the dictionary built so far. -/
def qdictLoop (ctx : QdictCtx) : QrDict → List MeasureRecord → Except PyErr QrDict
  | acc, [] => .ok acc
  | acc, rec :: rest =>
    match qdictStep ctx acc rec with
    | .error e => .error e
    | .ok acc2 => qdictLoop ctx acc2 rest

/-- Model of DataGenerator._create_qrcodes_dictionary (lines 84-109),
starting from the empty dictionary. -/
def create_qrcodes_dictionary (ctx : QdictCtx) (records : List MeasureRecord) :
    Except PyErr QrDict :=
  qdictLoop ctx [] records

/-- Model of DataGenerator._find_qrcodes (lines 72-81): extract the QR-code
of every measurement record in order (the first extraction failure
propagates), then apply sorted(list(set(...))): deduplicate and sort by the
lexicographic string order. -/
def find_qrcodes (json_paths_personal : List PersonalFile)
    (records : List MeasureRecord) : Except PyErr (List String) :=
  match records.mapM (extract_qrcode json_paths_personal) with
  | .error e => .error e
  | .ok qrcodes => .ok (List.insertionSort (fun a b => a ≤ b) qrcodes.dedup)

/-- The construction steps of DataGenerator.__init__ that produce
self.qrcodes (lines 46-48): run _find_qrcodes, then assert that the result
is not the empty list. -/
def init_qrcodes (json_paths_personal : List PersonalFile)
    (records : List MeasureRecord) : Except PyErr (List String) :=
  match find_qrcodes json_paths_personal records with
  | .error e => .error e
  | .ok qrcodes =>
      if qrcodes = [] then .error (.assertionError "No QR-codes found!")
      else .ok qrcodes

/-- The three decoded-array caches created in __init__ (lines 38-41). -/
structure Caches where
  image_cache : List (String × Arr)
  voxelgrid_cache : List (String × Arr)
  pointcloud_cache : List (String × Arr)
deriving DecidableEq

/-- Model of DataGenerator._load_image (lines 130-137). The dec argument
stands for the deterministic decode pipeline (load_img with the configured
target size, rotate by -90 degrees with expansion, conversion to a numpy
array). On a cache miss in image_cache the decoded array is stored, as in
the source, into voxelgrid_cache under the image path; image_cache itself
is never written. On a cache hit the source comparison image == [] is a
numpy comparison of an array with the empty list, which is falsy, so the
cached value is returned. -/
def load_image (dec : String → Arr) (st : Caches) (image_path : String) :
    Arr × Caches :=
  match dlookup st.image_cache image_path with
  | some v => (v, st)
  | none =>
    let image := dec image_path
    (image, { st with voxelgrid_cache := dictSet st.voxelgrid_cache image_path image })

/-- Model of DataGenerator._load_voxelgrid (lines 140-149). The decVg
argument stands for PyntCloud.from_file followed by voxelization at the
configured grid dimensions and density feature extraction, which can raise
on a malformed point cloud. A cache hit returns the stored array; a miss
decodes and stores under the scan path. -/
def load_voxelgrid (decVg : String → Except PyErr Arr) (st : Caches)
    (pcd_path : String) : Except PyErr (Arr × Caches) :=
  match dlookup st.voxelgrid_cache pcd_path with
  | some v => .ok (v, st)
  | none =>
    match decVg pcd_path with
    | .error e => .error e
    | .ok voxelgrid =>
      .ok (voxelgrid, { st with voxelgrid_cache := dictSet st.voxelgrid_cache pcd_path voxelgrid })

/-- Model of DataGenerator._load_pointcloud (lines 152-160). The fs
argument maps scan paths to the point matrix PyntCloud.from_file exposes as
points.values. After truncating to the first pointcloud_target_size rows,
line 158 evaluates the assertion condition, whose right-hand side names the
bare identifier pointcloud_target_size; no such module-level binding
exists (only the attribute self.pointcloud_target_size does), so Python
raises NameError before any shape comparison, and the cache store on line
159 is never reached. -/
def load_pointcloud (fs : List (String × List (List Int)))
    (pointcloud_target_size : Nat) (st : Caches) (pcd_path : String) :
    Except PyErr (Arr × Caches) :=
  match dlookup st.pointcloud_cache pcd_path with
  | some v => .ok (v, st)
  | none =>
    match dlookup fs pcd_path with
    | none => .error (.exception ("from_file failed: " ++ pcd_path))
    | some rows =>
      let _pointcloud := rows.take pointcloud_target_size
      .error (.nameError "pointcloud_target_size")

/-- The configuration fields __init__ stores on the instance that the shape
reporting and the loaders consult. -/
structure Config where
  input_type : String
  image_target_shape : List Nat
  voxelgrid_target_shape : List Nat
  pointcloud_target_size : Nat
deriving DecidableEq

/-- The default configuration values of __init__ (lines 18-20). -/
def defaultConfig (input_type : String) : Config :=
  { input_type := input_type
    image_target_shape := [160, 90]
    voxelgrid_target_shape := [32, 32, 32]
    pointcloud_target_size := 32000 }

/-- Model of DataGenerator.get_input_shape (lines 163-175): fixed literal
shapes per modality; the final branch raises over the bare identifier
input_type, which is unbound at module level, hence NameError. -/
def get_input_shape (self : Config) : Except PyErr (List Nat) :=
  if self.input_type = "image" then .ok [90, 160, 3]
  else if self.input_type = "voxelgrid" then .ok [32, 32, 32]
  else if self.input_type = "pointcloud" then .ok [32000, 4]
  else .error (.nameError "input_type")

/-- Shape of the array the image pipeline of _load_image materializes,
per the documented contract of the external decoder: load_img receives
image_target_shape as (height, width), the rotation by -90 degrees with
expansion swaps the two spatial extents, and the numpy conversion yields
(height, width, channels); so a configured [a, b] becomes [b, a, 3]. -/
def image_array_shape (self : Config) : List Nat :=
  [self.image_target_shape.getD 1 0, self.image_target_shape.getD 0 0, 3]

/-- Shape of the array _load_voxelgrid materializes, per the documented
contract of the external voxelizer: a density grid with exactly the
configured dimensions. -/
def voxelgrid_array_shape (self : Config) : List Nat :=
  self.voxelgrid_target_shape

/-- Shape the point-cloud loading contract requires of its result: exactly
pointcloud_target_size rows of 4 columns. -/
def pointcloud_array_shape (self : Config) : List Nat :=
  [self.pointcloud_target_size, 4]

/-- The state DataGenerator.generate reads: the modality selector, the
sample dictionary, and the three bound loader methods, abstracted as
path-indexed results (each loader is deterministic per path within a run,
the caches only memoize these values). -/
structure GenCtx where
  input_type : String
  qrcodes_dictionary : QrDict
  loadImage : String → Except PyErr Arr
  loadVoxel : String → Except PyErr Arr
  loadPcl : String → Except PyErr Arr

/-- One iteration of the inner while loop of generate (lines 195-248),
with the two random.choice draws resolved by an oracle pair c: the subject
index c.1 and the path index c.2, both reduced modulo the list lengths.
random.choice on an empty subject list raises IndexError; a subject absent
from the dictionary, an empty path list, or a caught decode failure
(voxelgrid and pointcloud branches only) leaves the accumulator unchanged;
an image decode failure is not caught and propagates; a successful decode
appends one (input, targets) sample; any other modality string reaches the
raise on line 240, which names the unbound identifier input_type and so
surfaces as NameError. -/
def gen_step (ctx : GenCtx) (qrcodes_to_use : List String)
    (acc : List (Arr × List Int)) (c : Nat × Nat) :
    Except PyErr (List (Arr × List Int)) :=
  if qrcodes_to_use.length = 0 then .error .indexError
  else
    let qrcode := qrcodes_to_use.getD (c.1 % qrcodes_to_use.length) ""
    match dlookup ctx.qrcodes_dictionary qrcode with
    | none => .ok acc
    | some (targets, jpg_paths, pcd_paths) =>
      if ctx.input_type = "image" then
        if jpg_paths.length = 0 then .ok acc
        else
          match ctx.loadImage (jpg_paths.getD (c.2 % jpg_paths.length) "") with
          | .ok image => .ok (acc ++ [(image, targets)])
          | .error e => .error e
      else if ctx.input_type = "voxelgrid" then
        if pcd_paths.length = 0 then .ok acc
        else
          match ctx.loadVoxel (pcd_paths.getD (c.2 % pcd_paths.length) "") with
          | .ok voxelgrid => .ok (acc ++ [(voxelgrid, targets)])
          | .error _ => .ok acc
      else if ctx.input_type = "pointcloud" then
        if pcd_paths.length = 0 then .ok acc
        else
          match ctx.loadPcl (pcd_paths.getD (c.2 % pcd_paths.length) "") with
          | .ok pointcloud => .ok (acc ++ [(pointcloud, targets)])
          | .error _ => .ok acc
      else .error (.nameError "input_type")

/-- The inner while loop of generate run against a finite oracle of random
draws: stop as soon as the accumulator holds size samples; answer none if
the oracle is exhausted first (the real loop would keep drawing). -/
def gen_fill (ctx : GenCtx) (qrcodes_to_use : List String) (size : Nat) :
    List (Nat × Nat) → List (Arr × List Int) →
    Except PyErr (Option (List (Arr × List Int)))
  | [], acc => if size ≤ acc.length then .ok (some acc) else .ok none
  | c :: cs, acc =>
    if size ≤ acc.length then .ok (some acc)
    else
      match gen_step ctx qrcodes_to_use acc c with
      | .error e => .error e
      | .ok acc2 => gen_fill ctx qrcodes_to_use size cs acc2

/-- The first batch generate yields (lines 253-256): the accumulated
samples stacked into an inputs array and a targets array, modelled as the
two projected lists. -/
def gen_first_batch (ctx : GenCtx) (qrcodes_to_use : List String) (size : Nat)
    (choices : List (Nat × Nat)) :
    Except PyErr (Option (List Arr × List (List Int))) :=
  match gen_fill ctx qrcodes_to_use size choices [] with
  | .error e => .error e
  | .ok none => .ok none
  | .ok (some acc) => .ok (some (acc.map Prod.fst, acc.map Prod.snd))

/-- Accumulator state of generate_dataset for the voxelgrid modality: the
three parallel output lists plus the function-scope local variable
voxelgrid, which persists across loop iterations and across subjects and is
absent until the first successful decode. -/
structure DsoState where
  x_qrcodes : List String
  x_inputs : List Arr
  y_outputs : List (List Int)
  voxelgridLocal : Option Arr
deriving DecidableEq

/-- One file of the voxelgrid branch of generate_dataset (lines 291-300):
the decode sits in a try block whose except clause only prints, and the
branch has no continue statement, so after a caught failure the three
appends still execute using whatever value the local variable voxelgrid
held from an earlier iteration; if no decode has succeeded yet the read of
that local raises UnboundLocalError. -/
def gds_vg_file (loadVg : String → Except PyErr Arr) (qrcode : String)
    (targets : List Int) (st : DsoState) (pcd_path : String) :
    Except PyErr DsoState :=
  let vg :=
    match loadVg pcd_path with
    | .ok v => some v
    | .error _ => st.voxelgridLocal
  match vg with
  | none => .error (.unboundLocal "voxelgrid")
  | some v =>
    .ok { x_qrcodes := st.x_qrcodes ++ [qrcode]
          x_inputs := st.x_inputs ++ [v]
          y_outputs := st.y_outputs ++ [targets]
          voxelgridLocal := vg }

/-- One subject of generate_dataset (lines 267-300, voxelgrid modality): a
subject absent from the dictionary is reported and skipped; otherwise every
scan path of the subject is processed in order. -/
def gds_vg_subject (loadVg : String → Except PyErr Arr) (qdict : QrDict)
    (st : DsoState) (qrcode : String) : Except PyErr DsoState :=
  match dlookup qdict qrcode with
  | none => .ok st
  | some (targets, _jpg_paths, pcd_paths) =>
    pcd_paths.foldlM (gds_vg_file loadVg qrcode targets) st

/-- Model of DataGenerator.generate_dataset (lines 259-324) for the
voxelgrid modality: fold over the requested subjects and return the three
stacked output lists. -/
def generate_dataset_voxelgrid (loadVg : String → Except PyErr Arr)
    (qdict : QrDict) (qrcodes_to_use : List String) :
    Except PyErr (List String × List Arr × List (List Int)) :=
  match qrcodes_to_use.foldlM (gds_vg_subject loadVg qdict) ⟨[], [], [], none⟩ with
  | .error e => .error e
  | .ok st => .ok (st.x_qrcodes, st.x_inputs, st.y_outputs)

/-- Empty caches, as created by __init__. -/
def cachesInit : Caches := ⟨[], [], []⟩

/-- A concrete deterministic image decode used in closed evaluations. -/
def decJ : String → Arr := fun p => ⟨[90, 160, 3], [Int.ofNat p.length]⟩

/-- A concrete voxelgrid decode used in closed evaluations: succeeds on the
path good.pcd with a fixed density grid and fails on every other path. -/
def vgArr : Arr := ⟨[32, 32, 32], [1]⟩

/-- A concrete voxelgrid decode for closed evaluations. -/
def loadVgX : String → Except PyErr Arr := fun p =>
  if p = "good.pcd" then .ok vgArr else .error (.exception "failed to decode")

/-- A point-cloud file with a single 4-column point, fewer than a target
size of 2. -/
def fsShort : List (String × List (List Int)) := [("short.pcd", [[0, 0, 0, 1]])]

/-- A point-cloud file with three 4-column points, at least a target size
of 2. -/
def fsLong : List (String × List (List Int)) :=
  [("long.pcd", [[0, 0, 0, 1], [1, 1, 1, 1], [2, 2, 2, 1]])]

/-- A concrete image array used by the generator witness. -/
def imgArrW : Arr := ⟨[90, 160, 3], [5]⟩

/-- A concrete generator context for the image modality, with one subject
QRW owning one image path whose decode succeeds. -/
def genCtxW : GenCtx :=
  { input_type := "image"
    qrcodes_dictionary := [("QRW", ([7, 8], ["m/w.jpg"], []))]
    loadImage := fun _ => .ok imgArrW
    loadVoxel := fun _ => .error (.exception "not used")
    loadPcl := fun _ => .error (.nameError "pointcloud_target_size") }

/-- A concrete generator context with an unknown modality selector and one
subject that does have a dictionary entry, so the modality branch of the
loop body is reached. -/
def genCtxFoo : GenCtx :=
  { input_type := "foo"
    qrcodes_dictionary := [("QRF", ([7], ["m/f.jpg"], ["m/f.pcd"]))]
    loadImage := fun _ => .ok imgArrW
    loadVoxel := fun _ => .error (.exception "not used")
    loadPcl := fun _ => .error (.nameError "pointcloud_target_size") }

/-- A concrete non-default configuration for the voxelgrid modality. -/
def cfgVgW : Config :=
  { input_type := "voxelgrid"
    image_target_shape := [160, 90]
    voxelgrid_target_shape := [20, 20, 20]
    pointcloud_target_size := 32000 }

/-- Concrete personal records for the join witnesses: two files, each path
containing one distinct person id. -/
def personalsW : List PersonalFile :=
  [⟨"root/person/P111/personal.json", "QRB"⟩, ⟨"root/person/P222/personal.json", "QRA"⟩]

/-- Concrete measurement records whose extraction succeeds and repeats a
subject, for the sorted-dedup witness. -/
def recordsW : List MeasureRecord :=
  [⟨"manual", "P111", [("height", 150), ("weight", 45)]⟩,
   ⟨"manual", "P222", [("height", 120), ("weight", 30)]⟩,
   ⟨"scan", "P111", [("height", 151), ("weight", 46)]⟩]

/-- A concrete dictionary-builder context over the witness records. -/
def qdictCtxW : QdictCtx :=
  { json_paths_personal := personalsW
    output_targets := ["height", "weight"]
    jpg_paths := ["root/QRB/measurements/a.jpg", "root/QRB/other/b.jpg"]
    pcd_paths := ["root/QRA/measurements/c.pcd"] }

/-- C1: the raw point-cloud loader is claimed to raise a shape-mismatch
assertion when the file holds fewer points than pointcloud_target_size and
to return a (pointcloud_target_size, 4) array otherwise; on the code, both
a 1-point file and a 3-point file loaded with target size 2 instead raise
NameError over the unbound identifier pointcloud_target_size on the
assertion line, and no array is ever returned on a cache miss. -/
theorem pointcloud_loader_raises_nameerror :
    load_pointcloud fsShort 2 cachesInit "short.pcd"
        = .error (.nameError "pointcloud_target_size")
      ∧ load_pointcloud fsLong 2 cachesInit "long.pcd"
        = .error (.nameError "pointcloud_target_size") :=
  ⟨rfl, rfl⟩

/-- C2: the claim says every modality loader caches by path and a second
call on the same path is a cache hit returning the stored array; on the
code, the image loader leaves image_cache empty and stores the decoded
array into voxelgrid_cache, so the second call decodes afresh instead of
hitting a cache, and the raw point-cloud loader raises NameError on every
cache miss, returning no array at all. -/
theorem modality_loader_second_call_not_cache_hit :
    (load_image decJ cachesInit "m/a.jpg").1 = decJ "m/a.jpg"
  ∧ (load_image decJ cachesInit "m/a.jpg").2.image_cache = []
  ∧ (load_image decJ cachesInit "m/a.jpg").2.voxelgrid_cache
      = [("m/a.jpg", decJ "m/a.jpg")]
  ∧ (load_image decJ (load_image decJ cachesInit "m/a.jpg").2 "m/a.jpg").1
      = decJ "m/a.jpg"
  ∧ (load_image decJ (load_image decJ cachesInit "m/a.jpg").2 "m/a.jpg").2.image_cache
      = []
  ∧ load_pointcloud fsLong 3 cachesInit "long.pcd"
      = .error (.nameError "pointcloud_target_size") :=
  ⟨rfl, rfl, rfl, rfl, rfl, rfl⟩

/-- C3: the claim says a file whose decode fails contributes no row to the
materializer output; on the code, for the voxelgrid modality the except
clause lacks a continue, so the failing file bad.pcd still contributes a
row carrying the voxelgrid decoded from the earlier file good.pcd, and when
the very first file fails the whole call dies with UnboundLocalError on
the local variable voxelgrid. -/
theorem materializer_voxelgrid_failure_still_appends_row :
    generate_dataset_voxelgrid loadVgX
        [("QR1", ([7], [], ["good.pcd", "bad.pcd"]))] ["QR1"]
        = .ok (["QR1", "QR1"], [vgArr, vgArr], [[7], [7]])
  ∧ generate_dataset_voxelgrid loadVgX
        [("QR2", ([7], [], ["bad.pcd"]))] ["QR2"]
        = .error (.unboundLocal "voxelgrid") :=
  ⟨rfl, rfl⟩

/-- C4: the claim says an unknown modality selector aborts construction or
the first call with a descriptive fatal error naming the selector; on the
code, construction accepts the selector foo, and both get_input_shape and
the generator loop body instead raise NameError over the unbound
identifier input_type, an error that does not name the selector. -/
theorem unknown_input_type_raises_unbound_nameerror :
    get_input_shape (defaultConfig "foo") = .error (.nameError "input_type")
  ∧ gen_step genCtxFoo ["QRF"] [] (0, 0) = .error (.nameError "input_type") :=
  ⟨rfl, rfl⟩

/-- A key that dlookup does not find is not among the keys of the
association list. -/
theorem dlookup_eq_none_not_mem {α : Type} :
    ∀ (d : List (String × α)) (k : String),
      dlookup d k = none → k ∉ d.map Prod.fst := by
  intro d
  induction d with
  | nil => intro k _ h; exact absurd h (List.not_mem_nil k)
  | cons kv rest ih =>
    intro k h hmem
    obtain ⟨k2, v⟩ := kv
    by_cases hk : k2 = k
    · rw [dlookup, if_pos hk] at h
      exact Option.noConfusion h
    · rw [dlookup, if_neg hk] at h
      rcases List.mem_cons.mp hmem with he | he
      · exact hk he.symm
      · exact ih k h he

/-- A successful dictionary-builder step either leaves the dictionary
unchanged or appends a single binding whose key was not present before. -/
theorem qdictStep_ok_cases (ctx : QdictCtx) (acc : QrDict) (rec : MeasureRecord)
    (acc2 : QrDict) (h : qdictStep ctx acc rec = .ok acc2) :
    acc2 = acc ∨ ∃ q e, acc2 = acc ++ [(q, e)] ∧ dlookup acc q = none := by
  unfold qdictStep at h
  by_cases ht : rec.typeValue ≠ "manual"
  · rw [if_pos ht] at h
    exact Or.inl (Except.ok.inj h).symm
  · rw [if_neg ht] at h
    split at h
    · exact Except.noConfusion h
    · rename_i q heq
      split at h
      · exact Except.noConfusion h
      · rename_i hd
        split at h
        · exact Except.noConfusion h
        · rename_i ts hts
          refine Or.inr ⟨q, _, (Except.ok.inj h).symm, ?_⟩
          cases hdl : dlookup acc q with
          | none => rfl
          | some v => rw [hdl] at hd; exact absurd rfl hd

/-- The dictionary-builder loop preserves distinctness of the keys. -/
theorem qdictLoop_nodup_keys (ctx : QdictCtx) :
    ∀ (records : List MeasureRecord) (acc d : QrDict),
      (acc.map Prod.fst).Nodup → qdictLoop ctx acc records = .ok d →
      (d.map Prod.fst).Nodup := by
  intro records
  induction records with
  | nil =>
    intro acc d hn h
    rw [qdictLoop] at h
    exact (Except.ok.inj h) ▸ hn
  | cons rec rest ih =>
    intro acc d hn h
    rw [qdictLoop] at h
    cases hs : qdictStep ctx acc rec with
    | error e => rw [hs] at h; exact Except.noConfusion h
    | ok acc2 =>
      rw [hs] at h
      rcases qdictStep_ok_cases ctx acc rec acc2 hs with heq | ⟨q, e, heq, hnone⟩
      · exact ih acc2 d (heq ▸ hn) h
      · refine ih acc2 d ?_ h
        subst heq
        rw [List.map_append]
        rw [List.nodup_append]
        refine ⟨hn, List.nodup_singleton q, ?_⟩
        intro a ha hb
        rw [List.map_cons, List.map_nil, List.mem_singleton] at hb
        subst hb
        exact dlookup_eq_none_not_mem acc a hnone ha

/-- C6: subject extraction keeps the personal-record paths containing
personId.value as a substring; when exactly one such path exists it
returns the qrcode.value of that unique personal record, and when zero or
more than one exist it fails with the bare assertion on the match count. -/
theorem extract_qrcode_unique_match (personals : List PersonalFile)
    (rec : MeasureRecord) :
    (∀ m : PersonalFile,
        personals.filter (fun p => strContains p.path rec.personId) = [m] →
        m ∈ personals ∧ strContains m.path rec.personId = true
          ∧ extract_qrcode personals rec = .ok m.qrcode)
  ∧ ((personals.filter (fun p => strContains p.path rec.personId)).length ≠ 1 →
        extract_qrcode personals rec
          = .error (.assertionError "len(json_path_personal) == 1")) := by
  constructor
  · intro m h
    have hm : m ∈ personals.filter (fun p => strContains p.path rec.personId) := by
      rw [h]; exact List.mem_singleton_self m
    have hmf := List.mem_filter.mp hm
    refine ⟨hmf.1, hmf.2, ?_⟩
    unfold extract_qrcode
    rw [h]
  · intro h
    unfold extract_qrcode
    rcases hf : personals.filter (fun p => strContains p.path rec.personId) with
      _ | ⟨a, _ | ⟨b, l⟩⟩
    · rw [hf]
    · exact absurd (by rw [hf]; rfl) h
    · rw [hf]

/-- C6 witness: on the concrete records, the person id P222 matches exactly
one personal-record path and yields its QR-code, while an id absent from
every path fails the assertion. -/
theorem extract_qrcode_unique_match_witness :
    extract_qrcode personalsW ⟨"manual", "P222", []⟩ = .ok "QRA"
  ∧ extract_qrcode personalsW ⟨"manual", "P999", []⟩
      = .error (.assertionError "len(json_path_personal) == 1") :=
  ⟨((extract_qrcode_unique_match personalsW ⟨"manual", "P222", []⟩).1
      ⟨"root/person/P222/personal.json", "QRA"⟩ (by decide)).2.2,
   (extract_qrcode_unique_match personalsW ⟨"manual", "P999", []⟩).2 (by decide)⟩

/-- C7: the dictionary builder skips records whose type.value is not
manual, fails fatally on a second manual record for a subject already in
the dictionary, and consequently every constructed dictionary has pairwise
distinct subject keys. -/
theorem qrcodes_dictionary_at_most_one_entry (ctx : QdictCtx) (acc : QrDict)
    (rec : MeasureRecord) (q : String) (records : List MeasureRecord)
    (d : QrDict) :
    (rec.typeValue ≠ "manual" → qdictStep ctx acc rec = .ok acc)
  ∧ (rec.typeValue = "manual" →
       extract_qrcode ctx.json_paths_personal rec = .ok q →
       (dlookup acc q).isSome →
       qdictStep ctx acc rec
         = .error (.exception ("Multiple manual measurements for QR-code: " ++ q)))
  ∧ (create_qrcodes_dictionary ctx records = .ok d → (d.map Prod.fst).Nodup) := by
  refine ⟨?_, ?_, ?_⟩
  · intro ht
    unfold qdictStep
    rw [if_pos ht]
  · intro ht he hd
    simp [qdictStep, ht, he, hd]
  · intro h
    exact qdictLoop_nodup_keys ctx records [] d (by simp) h

/-- C7 witness: on the concrete index inputs, a non-manual record is
skipped, a second manual record for subject QRB raises the duplicate
error, and the dictionary built from the full record list has distinct
keys. -/
theorem qrcodes_dictionary_at_most_one_entry_witness :
    qdictStep qdictCtxW [] ⟨"scan", "P111", []⟩ = .ok []
  ∧ qdictStep qdictCtxW [("QRB", ([150, 45], ["root/QRB/measurements/a.jpg"], []))]
        ⟨"manual", "P111", [("height", 150), ("weight", 45)]⟩
      = .error (.exception "Multiple manual measurements for QR-code: QRB")
  ∧ (([("QRB", (([150, 45] : List Int), ["root/QRB/measurements/a.jpg"],
          ([] : List String))),
      ("QRA", (([120, 30] : List Int), ([] : List String),
          ["root/QRA/measurements/c.pcd"]))] : QrDict).map Prod.fst).Nodup :=
  ⟨(qrcodes_dictionary_at_most_one_entry qdictCtxW [] ⟨"scan", "P111", []⟩ "" [] []).1
      (by decide),
   (qrcodes_dictionary_at_most_one_entry qdictCtxW
      [("QRB", ([150, 45], ["root/QRB/measurements/a.jpg"], []))]
      ⟨"manual", "P111", [("height", 150), ("weight", 45)]⟩ "QRB" [] []).2.1
      rfl (by rfl) (by rfl),
   (qrcodes_dictionary_at_most_one_entry qdictCtxW [] ⟨"scan", "P111", []⟩ ""
      recordsW _).2.2 (by rfl)⟩

/-- C8: when every extraction succeeds, the subject list is a sorted
duplicate-free list holding exactly the subject ids extracted from the
measurement records, and construction fails with the no-QR-codes assertion
exactly when that id set is empty. -/
theorem qrcodes_sorted_dedup_set (personals : List PersonalFile)
    (records : List MeasureRecord) (extracted : List String)
    (h : records.mapM (extract_qrcode personals) = .ok extracted) :
    (∃ r, find_qrcodes personals records = .ok r
        ∧ List.Sorted (fun a b : String => a ≤ b) r ∧ r.Nodup
        ∧ (∀ s, s ∈ r ↔ s ∈ extracted))
  ∧ (extracted = [] →
       init_qrcodes personals records
         = .error (.assertionError "No QR-codes found!"))
  ∧ (extracted ≠ [] →
       ∃ r, init_qrcodes personals records = .ok r ∧ r ≠ []) := by
  have hf : find_qrcodes personals records
      = .ok (List.insertionSort (fun a b : String => a ≤ b) extracted.dedup) := by
    unfold find_qrcodes
    rw [h]
  refine ⟨⟨_, hf, ?_, ?_, ?_⟩, ?_, ?_⟩
  · exact List.sorted_insertionSort _ _
  · exact ((List.perm_insertionSort _ _).nodup_iff).mpr (List.nodup_dedup _)
  · intro s
    rw [(List.perm_insertionSort _ _).mem_iff, List.mem_dedup]
  · intro he
    subst he
    unfold init_qrcodes
    rw [hf]
    rfl
  · intro hne
    have hsne : List.insertionSort (fun a b : String => a ≤ b) extracted.dedup ≠ [] := by
      intro h0
      apply hne
      have hlen := (List.perm_insertionSort (fun a b : String => a ≤ b) extracted.dedup).length_eq
      rw [h0] at hlen
      exact (List.dedup_eq_nil extracted).mp (List.length_eq_zero.mp hlen.symm)
    unfold init_qrcodes
    rw [hf]
    exact ⟨List.insertionSort (fun a b : String => a ≤ b) extracted.dedup,
      by simp only [if_neg hsne], hsne⟩

/-- C8 witness: the three concrete measurement records extract to the ids
QRB, QRA, QRB; the subject list is sorted, duplicate-free, carries exactly
these two ids, and construction succeeds with a nonempty list. -/
theorem qrcodes_sorted_dedup_set_witness :
    (∃ r, find_qrcodes personalsW recordsW = .ok r
        ∧ List.Sorted (fun a b : String => a ≤ b) r ∧ r.Nodup
        ∧ (∀ s, s ∈ r ↔ s ∈ ["QRB", "QRA", "QRB"]))
  ∧ (∃ r, init_qrcodes personalsW recordsW = .ok r ∧ r ≠ []) := by
  have h := qrcodes_sorted_dedup_set personalsW recordsW ["QRB", "QRA", "QRB"] (by rfl)
  exact ⟨h.1, h.2.2 (by decide)⟩

/-- C9: the image loader never writes image_cache; on a miss it decodes
afresh and stores the decoded array into voxelgrid_cache under the image
path; and neither the voxelgrid loader nor the point-cloud loader writes
image_cache either, so an image cache that starts empty stays empty for
the lifetime of the index while voxelgrid_cache accumulates entries keyed
by jpg paths. -/
theorem load_image_writes_voxelgrid_cache
    (dec : String → Arr) (decVg : String → Except PyErr Arr)
    (fs : List (String × List (List Int))) (tsz : Nat)
    (st : Caches) (p p2 : String) :
    ((load_image dec st p2).2.image_cache = st.image_cache)
  ∧ (dlookup st.image_cache p = none →
       load_image dec st p
         = (dec p,
            { st with voxelgrid_cache := dictSet st.voxelgrid_cache p (dec p) }))
  ∧ (∀ v st2, load_voxelgrid decVg st p2 = .ok (v, st2) →
       st2.image_cache = st.image_cache)
  ∧ (∀ v st2, load_pointcloud fs tsz st p2 = .ok (v, st2) →
       st2.image_cache = st.image_cache) := by
  refine ⟨?_, ?_, ?_, ?_⟩
  · unfold load_image
    cases hl : dlookup st.image_cache p2 <;> rfl
  · intro hm
    unfold load_image
    rw [hm]
  · intro v st2 h
    unfold load_voxelgrid at h
    cases hl : dlookup st.voxelgrid_cache p2 with
    | some w =>
      rw [hl] at h
      obtain ⟨-, h2⟩ := Prod.mk.inj (Except.ok.inj h)
      rw [← h2]
    | none =>
      rw [hl] at h
      cases hdv : decVg p2 with
      | error e => rw [hdv] at h; exact Except.noConfusion h
      | ok w =>
        rw [hdv] at h
        obtain ⟨-, h2⟩ := Prod.mk.inj (Except.ok.inj h)
        rw [← h2]
  · intro v st2 h
    unfold load_pointcloud at h
    cases hl : dlookup st.pointcloud_cache p2 with
    | some w =>
      rw [hl] at h
      obtain ⟨-, h2⟩ := Prod.mk.inj (Except.ok.inj h)
      rw [← h2]
    | none =>
      rw [hl] at h
      cases hfs : dlookup fs p2 with
      | none => rw [hfs] at h; exact Except.noConfusion h
      | some rows => rw [hfs] at h; exact Except.noConfusion h

/-- C9 witness: loading the image b.jpg on the empty caches leaves the
image cache empty and returns the freshly decoded array together with a
voxelgrid cache holding it under the jpg path. -/
theorem load_image_writes_voxelgrid_cache_witness :
    (load_image decJ cachesInit "b.jpg").2.image_cache = cachesInit.image_cache
  ∧ load_image decJ cachesInit "b.jpg"
      = (decJ "b.jpg",
         { cachesInit with
             voxelgrid_cache := dictSet cachesInit.voxelgrid_cache "b.jpg" (decJ "b.jpg") }) := by
  have h := load_image_writes_voxelgrid_cache decJ loadVgX fsShort 2 cachesInit
    "b.jpg" "b.jpg"
  exact ⟨h.1, h.2.1 rfl⟩

/-- C10: get_input_shape depends only on the modality selector and reports
the fixed literal shapes (90,160,3), (32,32,32) and (32000,4); for any
non-default configured target shape, the reported shape therefore differs
from the shape of the arrays the loaders actually materialize. -/
theorem get_input_shape_constant (cfg : Config) :
    (∀ cfg2 : Config, cfg.input_type = cfg2.input_type →
        get_input_shape cfg = get_input_shape cfg2)
  ∧ (cfg.input_type = "image" → cfg.image_target_shape.length = 2 →
        cfg.image_target_shape ≠ [160, 90] →
        get_input_shape cfg = .ok [90, 160, 3]
          ∧ get_input_shape cfg ≠ .ok (image_array_shape cfg))
  ∧ (cfg.input_type = "voxelgrid" → cfg.voxelgrid_target_shape ≠ [32, 32, 32] →
        get_input_shape cfg = .ok [32, 32, 32]
          ∧ get_input_shape cfg ≠ .ok (voxelgrid_array_shape cfg))
  ∧ (cfg.input_type = "pointcloud" → cfg.pointcloud_target_size ≠ 32000 →
        get_input_shape cfg = .ok [32000, 4]
          ∧ get_input_shape cfg ≠ .ok (pointcloud_array_shape cfg)) := by
  refine ⟨?_, ?_, ?_, ?_⟩
  · intro cfg2 h
    unfold get_input_shape
    rw [h]
  · intro h1 h2 h3
    have hv : get_input_shape cfg = .ok [90, 160, 3] := by
      simp [get_input_shape, h1]
    refine ⟨hv, ?_⟩
    rw [hv]
    intro hcontra
    have heq : ([90, 160, 3] : List Nat) = image_array_shape cfg :=
      Except.ok.inj hcontra
    rcases hs : cfg.image_target_shape with _ | ⟨a, _ | ⟨b, tl⟩⟩
    · rw [hs] at h2; simp at h2
    · rw [hs] at h2; simp at h2
    · have htl : tl = [] := by
        rw [hs] at h2
        simpa using h2
      subst htl
      unfold image_array_shape at heq
      rw [hs] at heq
      simp only [List.getD_cons_succ, List.getD_cons_zero] at heq
      have hb : (90 : Nat) = b := (List.cons.inj heq).1
      have ha : (160 : Nat) = a := (List.cons.inj (List.cons.inj heq).2).1
      apply h3
      rw [hs, ← ha, ← hb]
  · intro h1 h3
    have hv : get_input_shape cfg = .ok [32, 32, 32] := by
      simp [get_input_shape, h1]
    refine ⟨hv, ?_⟩
    rw [hv]
    intro hcontra
    exact h3 ((Except.ok.inj hcontra).symm)
  · intro h1 h3
    have hv : get_input_shape cfg = .ok [32000, 4] := by
      simp [get_input_shape, h1]
    refine ⟨hv, ?_⟩
    rw [hv]
    intro hcontra
    have heq : ([32000, 4] : List Nat) = pointcloud_array_shape cfg :=
      Except.ok.inj hcontra
    unfold pointcloud_array_shape at heq
    exact h3 (List.cons.inj heq).1.symm

/-- C10 witness: with the voxelgrid target shape configured to (20,20,20),
the reported input shape is still (32,32,32) and differs from the shape of
the density grids the loader materializes. -/
theorem get_input_shape_constant_witness :
    get_input_shape cfgVgW = .ok [32, 32, 32]
  ∧ get_input_shape cfgVgW ≠ .ok (voxelgrid_array_shape cfgVgW) :=
  (get_input_shape_constant cfgVgW).2.2.1 rfl (by decide)

/-- A completed accumulator makes gen_fill stop and emit it. -/
theorem gen_fill_stop (ctx : GenCtx) (qs : List String) (size : Nat)
    (choices : List (Nat × Nat)) (acc : List (Arr × List Int))
    (h : size ≤ acc.length) :
    gen_fill ctx qs size choices acc = .ok (some acc) := by
  cases choices with
  | nil => rw [gen_fill, if_pos h]
  | cons c cs => rw [gen_fill, if_pos h]

/-- An unfinished accumulator consumes the next oracle entry. -/
theorem gen_fill_more (ctx : GenCtx) (qs : List String) (size : Nat)
    (c : Nat × Nat) (cs : List (Nat × Nat)) (acc acc2 : List (Arr × List Int))
    (h : ¬ size ≤ acc.length) (hs : gen_step ctx qs acc c = .ok acc2) :
    gen_fill ctx qs size (c :: cs) acc = gen_fill ctx qs size cs acc2 := by
  rw [gen_fill, if_neg h, hs]

/-- Feeding the loop an oracle that repeats one productive draw grows the
accumulator by exactly one sample per iteration until the batch is full. -/
theorem gen_fill_replicate (ctx : GenCtx) (qs : List String) (c : Nat × Nat)
    (row : Arr × List Int)
    (hstep : ∀ acc, gen_step ctx qs acc c = .ok (acc ++ [row])) :
    ∀ (n : Nat) (acc : List (Arr × List Int)),
      gen_fill ctx qs (acc.length + n) (List.replicate n c) acc
        = .ok (some (acc ++ List.replicate n row)) := by
  intro n
  induction n with
  | zero =>
    intro acc
    simp only [List.replicate_zero, List.append_nil]
    exact gen_fill_stop ctx qs (acc.length + 0) [] acc (by omega)
  | succ k ih =>
    intro acc
    rw [List.replicate_succ]
    rw [gen_fill_more ctx qs (acc.length + (k + 1)) c (List.replicate k c) acc
      (acc ++ [row]) (by omega) (hstep acc)]
    have h2 := ih (acc ++ [row])
    rw [List.length_append] at h2
    simp only [List.length_singleton] at h2
    have harith : acc.length + (k + 1) = acc.length + 1 + k := by omega
    rw [harith, h2, List.replicate_succ, List.append_assoc, List.singleton_append]

/-- C5: whenever the subject subset holds at least one subject with a
dictionary entry, a non-empty path list for the selected modality and a
successfully decoding path, some finite sequence of random draws makes the
generator complete its first batch, whose inputs and targets both have
first dimension exactly the requested size. -/
theorem generate_eventually_yields_batch_of_size
    (ctx : GenCtx) (qs : List String) (N i j : Nat) (q : String)
    (targets : List Int) (jpgs pcds : List String)
    (hi : i < qs.length) (hq : qs.getD i "" = q)
    (hd : dlookup ctx.qrcodes_dictionary q = some (targets, jpgs, pcds))
    (hmod :
        (ctx.input_type = "image" ∧ j < jpgs.length
          ∧ ∃ v, ctx.loadImage (jpgs.getD j "") = .ok v)
      ∨ (ctx.input_type = "voxelgrid" ∧ j < pcds.length
          ∧ ∃ v, ctx.loadVoxel (pcds.getD j "") = .ok v)
      ∨ (ctx.input_type = "pointcloud" ∧ j < pcds.length
          ∧ ∃ v, ctx.loadPcl (pcds.getD j "") = .ok v)) :
    ∃ (choices : List (Nat × Nat)) (inputs : List Arr) (outs : List (List Int)),
      gen_first_batch ctx qs N choices = .ok (some (inputs, outs))
        ∧ inputs.length = N ∧ outs.length = N := by
  have hqs0 : ¬ qs.length = 0 := by omega
  have hstep : ∃ v, ∀ acc,
      gen_step ctx qs acc (i, j) = .ok (acc ++ [(v, targets)]) := by
    rcases hmod with ⟨him, hj, v, hv⟩ | ⟨him, hj, v, hv⟩ | ⟨him, hj, v, hv⟩
    · refine ⟨v, fun acc => ?_⟩
      have hjl : jpgs ≠ [] := by
        intro h0
        rw [h0] at hj
        simp at hj
      simp only [List.getD_eq_getElem?_getD] at hq hv
      simp [gen_step, hqs0, Nat.mod_eq_of_lt hi, Nat.mod_eq_of_lt hj, hq, hd,
        him, hjl, hv]
    · refine ⟨v, fun acc => ?_⟩
      have hjl : pcds ≠ [] := by
        intro h0
        rw [h0] at hj
        simp at hj
      simp only [List.getD_eq_getElem?_getD] at hq hv
      simp [gen_step, hqs0, Nat.mod_eq_of_lt hi, Nat.mod_eq_of_lt hj, hq, hd,
        him, hjl, hv]
    · refine ⟨v, fun acc => ?_⟩
      have hjl : pcds ≠ [] := by
        intro h0
        rw [h0] at hj
        simp at hj
      simp only [List.getD_eq_getElem?_getD] at hq hv
      simp [gen_step, hqs0, Nat.mod_eq_of_lt hi, Nat.mod_eq_of_lt hj, hq, hd,
        him, hjl, hv]
  obtain ⟨v, hstep⟩ := hstep
  have hfill := gen_fill_replicate ctx qs (i, j) (v, targets) hstep N []
  rw [List.length_nil, List.nil_append, Nat.zero_add] at hfill
  refine ⟨List.replicate N (i, j),
    (List.replicate N ((v : Arr), targets)).map Prod.fst,
    (List.replicate N ((v : Arr), targets)).map Prod.snd, ?_, ?_, ?_⟩
  · unfold gen_first_batch
    rw [hfill]
  · rw [List.length_map, List.length_replicate]
  · rw [List.length_map, List.length_replicate]

/-- C5 witness: on a concrete image-modality context with one subject and
one decodable image path, the generator completes a batch of the requested
size 2 in both the inputs and the targets dimension. -/
theorem generate_eventually_yields_batch_of_size_witness :
    ∃ (choices : List (Nat × Nat)) (inputs : List Arr) (outs : List (List Int)),
      gen_first_batch genCtxW ["QRW"] 2 choices = .ok (some (inputs, outs))
        ∧ inputs.length = 2 ∧ outs.length = 2 :=
  generate_eventually_yields_batch_of_size genCtxW ["QRW"] 2 0 0 "QRW" [7, 8]
    ["m/w.jpg"] [] (by decide) rfl rfl
    (Or.inl ⟨rfl, by decide, ⟨imgArrW, rfl⟩⟩)
